import Mathlib

/-!
Verification of the langlearn record and domain-model layer.

The definitions below are a shallow embedding of the Python sources under
`src/langlearn/`: record parsers (`from_csv_fields`), record serialization
(`to_dict`), domain-model construction (`__post_init__` validation and
derivation), the German linguistic validators, and the image-search
strategy callables.  Python strings are modelled as Lean `String`;
Python exceptions as `Except`; Python `dict` results as association lists.
-/

namespace Langlearn

/-! ## Python string primitives

`pyStrip` models Python `str.strip()` restricted to the ASCII whitespace
characters (space, tab, newline, carriage return, vertical tab, form feed);
`pyLower` models `str.lower()` on ASCII letters.  All inputs relevant to the
embedded code are covered by this restriction. -/

/-- ASCII whitespace, as recognised by Python `str.strip()`. -/
def pyIsSpace (c : Char) : Bool :=
  c == ' ' || c == '\t' || c == '\n' || c == '\r' ||
  c == Char.ofNat 11 || c == Char.ofNat 12

/-- Python `s.strip()`: remove leading and trailing whitespace. -/
def pyStrip (s : String) : String :=
  String.mk (((s.toList.dropWhile pyIsSpace).reverse.dropWhile pyIsSpace).reverse)

/-- Python `s.lower()` on ASCII letters. -/
def pyLower (s : String) : String :=
  String.mk (s.toList.map Char.toLower)

/-- Python `s.rstrip(str c)`: remove every trailing occurrence of `c`. -/
def rstripChar (s : String) (c : Char) : String :=
  String.mk ((s.toList.reverse.dropWhile (· == c)).reverse)

/-- Python single-character `s.replace(a, b)`: replace every occurrence. -/
def replaceAllChar (s : String) (a b : Char) : String :=
  String.mk (s.toList.map (fun c => if c == a then b else c))

/-- Python `s.endswith(suf)`. -/
def strEndsWith (s suf : String) : Bool :=
  suf.toList.isSuffixOf s.toList

/-- Python `s.startswith(p)`. -/
def strStartsWith (s p : String) : Bool :=
  p.toList.isPrefixOf s.toList

/-- Python slice `s[n:]`. -/
def strDrop (s : String) (n : Nat) : String :=
  String.mk (s.toList.drop n)

/-- Python slice `s[:-n]` (for `n ≤ len s`; total like the Python slice). -/
def strDropRight (s : String) (n : Nat) : String :=
  String.mk (s.toList.take (s.toList.length - n))

/-- Contiguous-sublist test: does `needle` occur inside `hay`? -/
def containsSub : List Char → List Char → Bool
  | hay@(_ :: t), needle => needle.isPrefixOf hay || containsSub t needle
  | [], needle => needle.isEmpty

/-- A single-quote character, written by code point to keep sources plain. -/
def sq : String := String.singleton (Char.ofNat 39)

/-- Python `repr` of a string (single-quoted). -/
def pyQuote (s : String) : String := sq ++ s ++ sq

/-- Join with Python item separator. -/
def joinCommaSpace : List String → String
  | [] => ""
  | [x] => x
  | x :: xs => x ++ ", " ++ joinCommaSpace xs

/-- Python `repr` of a set of strings, elements in source order.
Python set display order is unspecified at runtime; the embedding fixes the
order in which the literal is written in the source. -/
def pySetRepr (xs : List String) : String :=
  "\x7b" ++ joinCommaSpace (xs.map pyQuote) ++ "\x7d"

/-- Python `repr` of a list of strings. -/
def pyListRepr (xs : List String) : String :=
  "[" ++ joinCommaSpace (xs.map pyQuote) ++ "]"

/-! ## Exceptions and service protocol

`PyExn` distinguishes `MediaGenerationError` from every other exception
class, which is the only distinction the strategy callables make.
An AI service (`ImageQueryGenerationProtocol.generate_image_query`) maps a
context string to either a result string or a raised exception. -/

inductive PyExn where
  | mediaGenerationError (msg : String)
  | otherError (msg : String)
  deriving DecidableEq, Repr

/-- The injected `ai_service.generate_image_query`. -/
def AIService : Type := String → Except PyExn String

/-! ## German `Adjective` domain model (`german/models/adjective.py`) -/

structure Adjective where
  word : String
  english : String
  «example» : String
  comparative : String := ""
  superlative : String := ""
  deriving DecidableEq, Repr

/-- Embeds `Adjective.__post_init__`: required fields `word`, `english`, `example`
must not be empty or whitespace-only; the first failing field raises. -/
def Adjective.make (word english «example» comparative superlative : String) :
    Except String Adjective :=
  if pyStrip word = "" then
    .error ("Required field " ++ pyQuote "word" ++ " cannot be empty")
  else if pyStrip english = "" then
    .error ("Required field " ++ pyQuote "english" ++ " cannot be empty")
  else if pyStrip «example» = "" then
    .error ("Required field " ++ pyQuote "example" ++ " cannot be empty")
  else
    .ok ⟨word, english, «example», comparative, superlative⟩

/-- The irregular comparative table of `Adjective.validate_comparative`. -/
def irregular_comparatives : List (String × String) :=
  [("gut", "besser"), ("viel", "mehr"), ("gern", "lieber"),
   ("hoch", "höher"), ("nah", "näher")]

/-- The umlaut pairs used by the comparative and superlative validators. -/
def umlaut_pairs : List (Char × Char) := [('a', 'ä'), ('o', 'ö'), ('u', 'ü')]

/-- Embeds `Adjective.validate_comparative`. -/
def Adjective.validate_comparative (a : Adjective) : Bool :=
  match List.lookup a.word irregular_comparatives with
  | some v => a.comparative == v
  | none =>
    if !strEndsWith a.comparative "er" then false
    else
      let base := rstripChar a.word 'e'
      let comp_base := strDropRight a.comparative 2
      if base == comp_base then true
      else umlaut_pairs.any (fun p => replaceAllChar base p.1 p.2 == comp_base)

/-- The irregular superlative table of `Adjective.validate_superlative`. -/
def irregular_superlatives : List (String × String) :=
  [("gut", "am besten"), ("viel", "am meisten"), ("gern", "am liebsten"),
   ("hoch", "am höchsten"), ("nah", "am nächsten")]

/-- Embeds `Adjective.validate_superlative`. -/
def Adjective.validate_superlative (a : Adjective) : Bool :=
  if a.superlative == "" then true
  else
    match List.lookup a.word irregular_superlatives with
    | some v => a.superlative == v
    | none =>
      if !strStartsWith a.superlative "am " then false
      else if !strEndsWith a.superlative "sten" then false
      else
        let superlative_base := strDropRight (strDrop a.superlative 3) 4
        let superlative_base :=
          if strEndsWith superlative_base "e" then strDropRight superlative_base 1
          else superlative_base
        let base := rstripChar a.word 'e'
        if base == superlative_base then true
        else umlaut_pairs.any
          (fun p => replaceAllChar base p.1 p.2 == superlative_base)

/-- The `concrete_adjectives` set of `Adjective._build_search_context`,
in source order. -/
def concrete_adjectives : List String :=
  ["red", "blue", "green", "yellow", "black", "white", "brown", "gray",
   "big", "small", "tall", "short", "long", "wide", "narrow",
   "hot", "cold", "warm", "cool", "wet", "dry",
   "round", "square", "flat", "curved", "straight",
   "soft", "hard", "smooth", "rough", "sharp", "blunt"]

/-- Embeds `Adjective._build_search_context`. -/
def Adjective.build_search_context (a : Adjective) : String :=
  let english_lower := pyStrip (pyLower a.english)
  let is_concrete := concrete_adjectives.any
    (fun concrete => containsSub english_lower.toList concrete.toList)
  let visual_strategy :=
    if is_concrete then
      "Focus on direct visual representation of the quality. " ++
      "Show objects, people, or scenes that clearly demonstrate this " ++
      "adjective through obvious visual characteristics."
    else
      "Use symbolic imagery, behavioral representations, or metaphorical " ++
      "scenes. Abstract qualities need creative interpretation through " ++
      "actions, expressions, symbols, or representative scenarios."
  let comparison_info := "Forms: " ++ a.word
  let comparison_info :=
    if a.comparative ≠ "" then comparison_info ++ " → " ++ a.comparative
    else comparison_info
  let comparison_info :=
    if a.superlative ≠ "" then comparison_info ++ " → " ++ a.superlative
    else comparison_info
  "\n        German adjective: " ++ a.word ++ " (English: " ++ a.english ++
  ")\n        Comparison: " ++ comparison_info ++
  "\n        Example usage: " ++ a.«example» ++
  "\n        Quality type: " ++
  (if is_concrete then "Concrete/Physical" else "Abstract/Conceptual") ++
  "\n\n        Challenge: Generate search terms for images representing " ++
  "this adjective quality.\n        Visual strategy: " ++ visual_strategy ++
  "\n\n        Generate search terms that photographers would use to tag " ++
  "images showing\n        this quality or characteristic.\n        "

/-- The body of the closure returned by `Adjective.get_image_search_strategy`:
calls the context builder, passes it to the service, trims a non-empty
result, raises `MediaGenerationError` on an empty result, re-raises
`MediaGenerationError` unchanged and wraps every other exception. -/
def Adjective.generate_search_terms (a : Adjective) (ai_service : AIService) :
    Except PyExn String :=
  match ai_service a.build_search_context with
  | .ok result =>
    if pyStrip result == "" then
      .error (.mediaGenerationError
        ("AI service returned empty image search query for adjective " ++
         pyQuote a.word))
    else
      .ok (pyStrip result)
  | .error (.mediaGenerationError m) => .error (.mediaGenerationError m)
  | .error (.otherError m) =>
    .error (.mediaGenerationError
      ("Failed to generate image search for adjective " ++ pyQuote a.word ++
       ": " ++ m))

/-- Embeds `Adjective.get_image_search_strategy`: the returned zero-argument
callable. -/
def Adjective.get_image_search_strategy (a : Adjective)
    (ai_service : AIService) : Unit → Except PyExn String :=
  fun _ => a.generate_search_terms ai_service

/-! ## Korean `KoreanNoun` domain model (`korean/models/noun.py`) -/

structure KoreanNoun where
  hangul : String
  romanization : String
  english : String
  topic_particle : String := ""
  subject_particle : String := ""
  object_particle : String := ""
  possessive_form : String := ""
  primary_counter : String := "개"
  counter_example : String := ""
  honorific_form : Option String := none
  semantic_category : String := "object"
  «example» : String := ""
  example_english : String := ""
  usage_notes : Option String := none
  deriving DecidableEq, Repr

/-- Embeds `KoreanNoun._has_final_consonant`: coda test on the last character,
using the Hangul syllable block arithmetic. -/
def has_final_consonant (hangul : String) : Bool :=
  match hangul.toList.getLast? with
  | Option.none => false
  | some last_char =>
    let char_code := last_char.toNat
    if 0xAC00 ≤ char_code ∧ char_code ≤ 0xD7A3 then
      (char_code - 0xAC00) % 28 != 0
    else
      false

/-- Embeds `KoreanNoun.__post_init__`: construction with particle derivation.
The Python initializer contains no raise statement, so construction is a
total function of the constructor arguments. -/
def KoreanNoun.make (hangul romanization english topic_particle
    subject_particle object_particle possessive_form primary_counter
    counter_example : String) (honorific_form : Option String)
    (semantic_category «example» example_english : String)
    (usage_notes : Option String) : KoreanNoun :=
  let topic_particle :=
    if topic_particle = "" then
      hangul ++ (if has_final_consonant hangul then "은" else "는")
    else topic_particle
  let subject_particle :=
    if subject_particle = "" then
      hangul ++ (if has_final_consonant hangul then "이" else "가")
    else subject_particle
  let object_particle :=
    if object_particle = "" then
      hangul ++ (if has_final_consonant hangul then "을" else "를")
    else object_particle
  let possessive_form :=
    if possessive_form = "" then hangul ++ "의" else possessive_form
  let counter_example :=
    if counter_example = "" ∧ primary_counter ≠ "" then
      hangul ++ " " ++
      (if semantic_category = "object" then "세" else "다섯") ++ " " ++
      primary_counter
    else counter_example
  ⟨hangul, romanization, english, topic_particle, subject_particle,
   object_particle, possessive_form, primary_counter, counter_example,
   honorific_form, semantic_category, «example», example_english, usage_notes⟩

/-- The context string built inside `KoreanNoun.get_image_search_strategy`. -/
def KoreanNoun.search_context (n : KoreanNoun) : String :=
  let context := "Korean noun: " ++ n.hangul ++ " (" ++ n.english ++ ")"
  let context :=
    if n.semantic_category ≠ "object" then
      context ++ ", Category: " ++ n.semantic_category
    else context
  match n.usage_notes with
  | some u => if u ≠ "" then context ++ ", Usage: " ++ u else context
  | Option.none => context

/-- Embeds `KoreanNoun.get_image_search_strategy`: the returned callable forwards
the raw service result — no trimming, no empty-result check, no exception
wrapping. -/
def KoreanNoun.get_image_search_strategy (n : KoreanNoun)
    (ai_service : AIService) : Unit → Except PyExn String :=
  fun _ => ai_service n.search_context

/-! ## Russian `RussianNoun` domain model (`russian/models/noun.py`) -/

structure RussianNoun where
  noun : String
  english : String
  «example» : String := ""
  related : String := ""
  gender : String := "masculine"
  animacy : String := "inanimate"
  nominative : String := ""
  genitive : String := ""
  accusative : String := ""
  instrumental : String := ""
  prepositional : String := ""
  dative : String := ""
  plural_nominative : String := ""
  plural_genitive : String := ""
  deriving DecidableEq, Repr

/-- Embeds `RussianNoun.__post_init__`: construction with nominative defaulting and
animacy-driven accusative derivation.  The Python initializer contains no
raise statement, so construction is a total function of the arguments. -/
def RussianNoun.make (noun english «example» related gender animacy
    nominative genitive accusative instrumental prepositional dative
    plural_nominative plural_genitive : String) : RussianNoun :=
  let nominative := if nominative = "" then noun else nominative
  let accusative :=
    if accusative = "" then
      if animacy = "animate" then
        if genitive ≠ "" then genitive else noun
      else nominative
    else accusative
  ⟨noun, english, «example», related, gender, animacy, nominative, genitive,
   accusative, instrumental, prepositional, dative, plural_nominative,
   plural_genitive⟩

/-! ## Record layer

`PyVal` models the values appearing in a record `to_dict()` result: strings,
booleans, and `None` (unpopulated media fields).  A Python dict is modelled
as an association list looked up with `dictGet`. -/

inductive PyVal where
  | str (s : String)
  | bool (b : Bool)
  | pyNone
  deriving DecidableEq, Repr

/-- A nullable media field as a dict value. -/
def optVal : Option String → PyVal
  | some s => .str s
  | Option.none => .pyNone

def PyDict : Type := List (String × PyVal)

def dictGet (d : PyDict) (k : String) : Option PyVal := List.lookup k d

/-! ### German `NounRecord` (`german/records/noun_record.py`) -/

structure NounRecord where
  noun : String
  article : String
  english : String
  plural : String
  «example» : String
  related : String := ""
  image : Option String := none
  word_audio : Option String := none
  example_audio : Option String := none
  deriving DecidableEq, Repr

def NounRecord.from_csv_fields (fields : List String) :
    Except String NounRecord :=
  if fields.length < 6 then
    .error ("NounRecord requires at least 6 fields, got " ++
      toString fields.length)
  else
    .ok ⟨pyStrip (fields.getD 0 ""), pyStrip (fields.getD 1 ""),
      pyStrip (fields.getD 2 ""), pyStrip (fields.getD 3 ""),
      pyStrip (fields.getD 4 ""), pyStrip (fields.getD 5 ""),
      none, none, none⟩

def NounRecord.to_dict (r : NounRecord) : PyDict :=
  [("noun", .str r.noun), ("article", .str r.article),
   ("english", .str r.english), ("plural", .str r.plural),
   ("example", .str r.«example»), ("related", .str r.related),
   ("image", optVal r.image), ("word_audio", optVal r.word_audio),
   ("example_audio", optVal r.example_audio)]

def NounRecord.field_names : List String :=
  ["noun", "article", "english", "plural", "example", "related"]

/-! ### German `AdjectiveRecord` (`german/records/adjective_record.py`) -/

structure AdjectiveRecord where
  word : String
  english : String
  «example» : String
  comparative : String
  superlative : String := ""
  image : Option String := none
  word_audio : Option String := none
  example_audio : Option String := none
  deriving DecidableEq, Repr

def AdjectiveRecord.from_csv_fields (fields : List String) :
    Except String AdjectiveRecord :=
  if fields.length < 4 then
    .error ("AdjectiveRecord requires at least 4 fields, got " ++
      toString fields.length)
  else
    .ok ⟨pyStrip (fields.getD 0 ""), pyStrip (fields.getD 1 ""),
      pyStrip (fields.getD 2 ""), pyStrip (fields.getD 3 ""),
      (if fields.length > 4 then pyStrip (fields.getD 4 "") else ""),
      none, none, none⟩

/-! ### German `AdverbRecord` (`german/records/adverb_record.py`) -/

structure AdverbRecord where
  word : String
  english : String
  type : String
  «example» : String
  image : Option String := none
  word_audio : Option String := none
  example_audio : Option String := none
  deriving DecidableEq, Repr

def AdverbRecord.from_csv_fields (fields : List String) :
    Except String AdverbRecord :=
  if fields.length < 4 then
    .error ("AdverbRecord requires at least 4 fields, got " ++
      toString fields.length)
  else
    .ok ⟨pyStrip (fields.getD 0 ""), pyStrip (fields.getD 1 ""),
      pyStrip (fields.getD 2 ""), pyStrip (fields.getD 3 ""),
      none, none, none⟩

/-! ### German `VerbRecord` (`german/records/verb_record.py`) -/

structure VerbRecord where
  verb : String
  english : String
  classification : String
  present_ich : String
  present_du : String
  present_er : String
  «präteritum» : String
  auxiliary : String
  perfect : String
  «example» : String
  separable : Bool
  word_audio : Option String := none
  example_audio : Option String := none
  image : Option String := none
  deriving DecidableEq, Repr

/-- Embeds `VerbRecord.from_csv_fields`: note that the separable flag is parsed by
comparison with the single literal `"true"` after stripping and lowering. -/
def VerbRecord.from_csv_fields (fields : List String) :
    Except String VerbRecord :=
  if fields.length ≠ 11 then
    .error ("VerbRecord expects 11 fields, got " ++ toString fields.length)
  else
    .ok ⟨pyStrip (fields.getD 0 ""), pyStrip (fields.getD 1 ""),
      pyStrip (fields.getD 2 ""), pyStrip (fields.getD 3 ""),
      pyStrip (fields.getD 4 ""), pyStrip (fields.getD 5 ""),
      pyStrip (fields.getD 6 ""), pyStrip (fields.getD 7 ""),
      pyStrip (fields.getD 8 ""), pyStrip (fields.getD 9 ""),
      pyLower (pyStrip (fields.getD 10 "")) == "true",
      none, none, none⟩

/-! ### German `PhraseRecord` (`german/records/phrase_record.py`) -/

structure PhraseRecord where
  phrase : String
  english : String
  context : String
  related : String := ""
  phrase_audio : Option String := none
  image : Option String := none
  deriving DecidableEq, Repr

def PhraseRecord.from_csv_fields (fields : List String) :
    Except String PhraseRecord :=
  if fields.length ≠ 4 then
    .error ("PhraseRecord expects 4 fields, got " ++ toString fields.length)
  else
    .ok ⟨pyStrip (fields.getD 0 ""), pyStrip (fields.getD 1 ""),
      pyStrip (fields.getD 2 ""), pyStrip (fields.getD 3 ""),
      none, none⟩

/-! ### German `PrepositionRecord` (`german/records/preposition_record.py`) -/

structure PrepositionRecord where
  preposition : String
  english : String
  «case» : String
  example1 : String
  example2 : String
  word_audio : Option String := none
  example1_audio : Option String := none
  example2_audio : Option String := none
  image : Option String := none
  deriving DecidableEq, Repr

def PrepositionRecord.from_csv_fields (fields : List String) :
    Except String PrepositionRecord :=
  if fields.length ≠ 5 then
    .error ("PrepositionRecord expects 5 fields, got " ++
      toString fields.length)
  else
    .ok ⟨pyStrip (fields.getD 0 ""), pyStrip (fields.getD 1 ""),
      pyStrip (fields.getD 2 ""), pyStrip (fields.getD 3 ""),
      pyStrip (fields.getD 4 ""), none, none, none, none⟩

/-! ### German `VerbConjugationRecord`
(`german/records/verb_conjugation_record.py`) -/

structure VerbConjugationRecord where
  infinitive : String
  english : String
  classification : String
  separable : Bool
  auxiliary : String
  tense : String
  ich : String := ""
  du : String := ""
  er : String := ""
  wir : String := ""
  ihr : String := ""
  sie : String := ""
  «example» : String := ""
  word_audio : Option String := none
  example_audio : Option String := none
  image : Option String := none
  deriving DecidableEq, Repr

def valid_classifications : List String :=
  ["regelmäßig", "unregelmäßig", "gemischt", "modal"]

def valid_auxiliaries : List String := ["haben", "sein"]

def valid_tenses : List String :=
  ["present", "preterite", "perfect", "future", "subjunctive", "imperative"]

/-- The fixed impersonal (weather) verb set of
`VerbConjugationRecord._validate_tense_completeness`. -/
def impersonal_verbs : List String :=
  ["regnen", "schneien", "hageln", "donnern", "blitzen"]

/-- Embeds `VerbConjugationRecord._validate_tense_completeness`, applied after the
person forms have been stripped by `validate`.  The source condition
`not form or form.strip() == ""` is `pyStrip form = ""` on strings. -/
def VerbConjugationRecord.validate_tense_completeness
    (r : VerbConjugationRecord) : Except String VerbConjugationRecord :=
  let tense := pyLower r.tense
  let is_impersonal := impersonal_verbs.contains r.infinitive
  if tense == "present" || tense == "preterite" || tense == "subjunctive" then
    if is_impersonal then
      if pyStrip r.sie == "" then
        .error ("Impersonal verb " ++ r.infinitive ++ " requires " ++
          pyQuote "sie" ++ " form")
      else .ok r
    else
      let required_forms :=
        [(r.ich, "ich"), (r.du, "du"), (r.er, "er"),
         (r.wir, "wir"), (r.ihr, "ihr"), (r.sie, "sie")]
      let missing :=
        (required_forms.filter (fun p => pyStrip p.1 == "")).map (·.2)
      if missing.isEmpty then .ok r
      else
        .error (tense ++ " tense requires all persons: missing " ++
          joinCommaSpace missing)
  else if tense == "imperative" then
    if pyStrip r.du == "" then
      .error ("Imperative tense requires " ++ pyQuote "du" ++ " form")
    else if pyStrip r.ihr == "" then
      .error ("Imperative tense requires " ++ pyQuote "ihr" ++ " form")
    else .ok r
  else if tense == "perfect" && pyStrip r.sie == "" then
    .error ("Perfect tense requires auxiliary form in " ++ pyQuote "sie" ++
      " field")
  else .ok r

/-- Embeds `VerbConjugationRecord.validate` (run by `__post_init__`): enumerated
value checks for classification, auxiliary, and tense, each failing with an
error naming the allowed set; then form stripping and tense completeness. -/
def VerbConjugationRecord.validate (r : VerbConjugationRecord) :
    Except String VerbConjugationRecord :=
  if !valid_classifications.contains r.classification then
    .error ("Invalid classification: " ++ r.classification ++
      ". Must be one of " ++ pySetRepr valid_classifications)
  else if !valid_auxiliaries.contains r.auxiliary then
    .error ("Invalid auxiliary: " ++ r.auxiliary ++ ". Must be one of " ++
      pySetRepr valid_auxiliaries)
  else if !valid_tenses.contains r.tense then
    .error ("Invalid tense: " ++ r.tense ++ ". Must be one of " ++
      pySetRepr valid_tenses)
  else
    VerbConjugationRecord.validate_tense_completeness
      { r with ich := pyStrip r.ich, du := pyStrip r.du, er := pyStrip r.er,
               wir := pyStrip r.wir, ihr := pyStrip r.ihr,
               sie := pyStrip r.sie }

/-- Embeds `VerbConjugationRecord.from_csv_fields`: the separable flag parses from
the stripped, lowered field by membership in `("true", "1", "yes")`. -/
def VerbConjugationRecord.from_csv_fields (fields : List String) :
    Except String VerbConjugationRecord :=
  if fields.length < 12 then
    .error ("VerbConjugationRecord requires at least 12 fields, got " ++
      toString fields.length)
  else
    VerbConjugationRecord.validate
      ⟨pyStrip (fields.getD 0 ""), pyStrip (fields.getD 1 ""),
       pyStrip (fields.getD 2 ""),
       ["true", "1", "yes"].contains (pyLower (pyStrip (fields.getD 3 ""))),
       pyStrip (fields.getD 4 ""), pyStrip (fields.getD 5 ""),
       pyStrip (fields.getD 6 ""), pyStrip (fields.getD 7 ""),
       pyStrip (fields.getD 8 ""), pyStrip (fields.getD 9 ""),
       pyStrip (fields.getD 10 ""), pyStrip (fields.getD 11 ""),
       (if fields.length > 12 then pyStrip (fields.getD 12 "") else ""),
       none, none, none⟩

/-! ### German `ArticleRecord` (`german/records/article_record.py`) -/

structure ArticleRecord where
  gender : String
  nominative : String
  accusative : String
  dative : String
  genitive : String
  example_nom : String
  example_acc : String
  example_dat : String
  example_gen : String
  article_audio : Option String := none
  example_audio : Option String := none
  deriving DecidableEq, Repr

def valid_genders : List String := ["masculine", "feminine", "neuter", "plural"]

/-- Embeds `ArticleRecord.validate` (run by `__post_init__`). -/
def ArticleRecord.validate (r : ArticleRecord) :
    Except String ArticleRecord :=
  if !valid_genders.contains r.gender then
    .error ("Invalid gender: " ++ r.gender ++ ". Must be one of " ++
      pySetRepr valid_genders)
  else .ok r

def ArticleRecord.from_csv_fields (fields : List String) :
    Except String ArticleRecord :=
  if fields.length ≠ 9 then
    .error ("ArticleRecord expects 9 fields, got " ++ toString fields.length)
  else
    ArticleRecord.validate
      ⟨pyStrip (fields.getD 0 ""), pyStrip (fields.getD 1 ""),
       pyStrip (fields.getD 2 ""), pyStrip (fields.getD 3 ""),
       pyStrip (fields.getD 4 ""), pyStrip (fields.getD 5 ""),
       pyStrip (fields.getD 6 ""), pyStrip (fields.getD 7 ""),
       pyStrip (fields.getD 8 ""), none, none⟩

/-! ### German `UnifiedArticleRecord`
(`german/records/unified_article_record.py`) -/

structure UnifiedArticleRecord where
  artikel_typ : String
  geschlecht : String
  nominativ : String
  akkusativ : String
  dativ : String
  genitiv : String
  beispiel_nom : String
  beispiel_akk : String
  beispiel_dat : String
  beispiel_gen : String
  article_audio : Option String := none
  example_audio : Option String := none
  image : Option String := none
  deriving DecidableEq, Repr

def valid_artikel_typen : List String := ["bestimmt", "unbestimmt", "verneinend"]

def valid_geschlechter : List String := ["maskulin", "feminin", "neutral", "plural"]

/-- Embeds `UnifiedArticleRecord.validate` (run by `__post_init__`). -/
def UnifiedArticleRecord.validate (r : UnifiedArticleRecord) :
    Except String UnifiedArticleRecord :=
  if !valid_artikel_typen.contains r.artikel_typ then
    .error ("Invalid artikel_typ: " ++ r.artikel_typ ++ ". Must be one of " ++
      pySetRepr valid_artikel_typen)
  else if !valid_geschlechter.contains r.geschlecht then
    .error ("Invalid geschlecht: " ++ r.geschlecht ++ ". Must be one of " ++
      pySetRepr valid_geschlechter)
  else .ok r

def UnifiedArticleRecord.from_csv_fields (fields : List String) :
    Except String UnifiedArticleRecord :=
  if fields.length ≠ 10 then
    .error ("UnifiedArticleRecord expects 10 fields, got " ++
      toString fields.length)
  else
    UnifiedArticleRecord.validate
      ⟨pyStrip (fields.getD 0 ""), pyStrip (fields.getD 1 ""),
       pyStrip (fields.getD 2 ""), pyStrip (fields.getD 3 ""),
       pyStrip (fields.getD 4 ""), pyStrip (fields.getD 5 ""),
       pyStrip (fields.getD 6 ""), pyStrip (fields.getD 7 ""),
       pyStrip (fields.getD 8 ""), pyStrip (fields.getD 9 ""),
       none, none, none⟩

/-! ### German `VerbImperativeRecord`
(`german/records/verb_imperative_record.py`) -/

structure VerbImperativeRecord where
  infinitive : String
  english : String
  du : String
  ihr : String
  sie : String
  wir : String
  example_du : String
  example_ihr : String
  example_sie : String
  word_audio : Option String := none
  image : Option String := none
  deriving DecidableEq, Repr

/-- Embeds `VerbImperativeRecord.validate` (run by `__post_init__`): the four
imperative forms must be non-empty, checked in the order du, ihr, sie, wir;
the forms are then stripped. -/
def VerbImperativeRecord.validate (r : VerbImperativeRecord) :
    Except String VerbImperativeRecord :=
  if pyStrip r.du == "" then
    .error ("Imperative form " ++ pyQuote "du" ++ " cannot be empty")
  else if pyStrip r.ihr == "" then
    .error ("Imperative form " ++ pyQuote "ihr" ++ " cannot be empty")
  else if pyStrip r.sie == "" then
    .error ("Imperative form " ++ pyQuote "sie" ++ " cannot be empty")
  else if pyStrip r.wir == "" then
    .error ("Imperative form " ++ pyQuote "wir" ++ " cannot be empty")
  else
    .ok { r with du := pyStrip r.du, ihr := pyStrip r.ihr,
                 sie := pyStrip r.sie, wir := pyStrip r.wir }

def VerbImperativeRecord.from_csv_fields (fields : List String) :
    Except String VerbImperativeRecord :=
  if fields.length < 7 then
    .error ("VerbImperativeRecord requires at least 7 fields, got " ++
      toString fields.length)
  else
    VerbImperativeRecord.validate
      ⟨pyStrip (fields.getD 0 ""), pyStrip (fields.getD 1 ""),
       pyStrip (fields.getD 2 ""), pyStrip (fields.getD 3 ""),
       pyStrip (fields.getD 4 ""), pyStrip (fields.getD 5 ""),
       pyStrip (fields.getD 6 ""),
       (if fields.length > 7 then pyStrip (fields.getD 7 "") else ""),
       (if fields.length > 8 then pyStrip (fields.getD 8 "") else ""),
       (if fields.length > 9 ∧ pyStrip (fields.getD 9 "") ≠ "" then
          some (pyStrip (fields.getD 9 "")) else none),
       (if fields.length > 10 ∧ pyStrip (fields.getD 10 "") ≠ "" then
          some (pyStrip (fields.getD 10 "")) else none)⟩

/-! ### Record modules referenced by the factory but absent from `src/` -/

/-- Modelled from the spec: `negation_record.py` is imported by the German
record factory but its module is not under `src/`.  Per the spec, every
record type parses an ordered field array and strips surrounding whitespace
from every field; its exact field layout is not specified, so the record
holds the stripped field array. -/
structure NegationRecord where
  fields : List String
  deriving DecidableEq, Repr

/-- Modelled from the spec: parse function of the absent
`negation_record.py`, keeping the per-field trimming contract. -/
def NegationRecord.from_csv_fields (fields : List String) :
    Except String NegationRecord :=
  .ok ⟨fields.map pyStrip⟩

/-- Modelled from the spec: `indefinite_article_record.py` is imported by
the German record factory but its module is not under `src/`. -/
structure IndefiniteArticleRecord where
  fields : List String
  deriving DecidableEq, Repr

/-- Modelled from the spec: parse function of the absent
`indefinite_article_record.py`, keeping the per-field trimming contract. -/
def IndefiniteArticleRecord.from_csv_fields (fields : List String) :
    Except String IndefiniteArticleRecord :=
  .ok ⟨fields.map pyStrip⟩

/-- Modelled from the spec: `negative_article_record.py` is imported by the
German record factory but its module is not under `src/`. -/
structure NegativeArticleRecord where
  fields : List String
  deriving DecidableEq, Repr

/-- Modelled from the spec: parse function of the absent
`negative_article_record.py`, keeping the per-field trimming contract. -/
def NegativeArticleRecord.from_csv_fields (fields : List String) :
    Except String NegativeArticleRecord :=
  .ok ⟨fields.map pyStrip⟩

/-! ### German record factory (`german/records/factory.py`) -/

/-- The result of `GermanRecordFactory.create`: one constructor per record
variant in the factory registry. -/
inductive GermanRecord where
  | noun (r : NounRecord)
  | adjective (r : AdjectiveRecord)
  | adverb (r : AdverbRecord)
  | negation (r : NegationRecord)
  | verb (r : VerbRecord)
  | phrase (r : PhraseRecord)
  | preposition (r : PrepositionRecord)
  | verb_conjugation (r : VerbConjugationRecord)
  | verb_imperative (r : VerbImperativeRecord)
  | article (r : ArticleRecord)
  | indefinite_article (r : IndefiniteArticleRecord)
  | negative_article (r : NegativeArticleRecord)
  | unified_article (r : UnifiedArticleRecord)
  deriving DecidableEq, Repr

/-- Embeds `GermanRecordFactory._registry`, in source (insertion) order: each tag
maps to the variant parse function. -/
def germanRegistry :
    List (String × (List String → Except String GermanRecord)) :=
  [("noun", fun fs => (NounRecord.from_csv_fields fs).map .noun),
   ("adjective", fun fs => (AdjectiveRecord.from_csv_fields fs).map .adjective),
   ("adverb", fun fs => (AdverbRecord.from_csv_fields fs).map .adverb),
   ("negation", fun fs => (NegationRecord.from_csv_fields fs).map .negation),
   ("verb", fun fs => (VerbRecord.from_csv_fields fs).map .verb),
   ("phrase", fun fs => (PhraseRecord.from_csv_fields fs).map .phrase),
   ("preposition",
    fun fs => (PrepositionRecord.from_csv_fields fs).map .preposition),
   ("verb_conjugation",
    fun fs => (VerbConjugationRecord.from_csv_fields fs).map .verb_conjugation),
   ("verb_imperative",
    fun fs => (VerbImperativeRecord.from_csv_fields fs).map .verb_imperative),
   ("article", fun fs => (ArticleRecord.from_csv_fields fs).map .article),
   ("indefinite_article",
    fun fs => (IndefiniteArticleRecord.from_csv_fields fs).map
      .indefinite_article),
   ("negative_article",
    fun fs => (NegativeArticleRecord.from_csv_fields fs).map
      .negative_article),
   ("unified_article",
    fun fs => (UnifiedArticleRecord.from_csv_fields fs).map .unified_article)]

/-- Embeds `GermanRecordFactory.get_supported_types`. -/
def get_supported_types : List String := germanRegistry.map (·.1)

/-- Embeds `GermanRecordFactory.create`: unsupported tags fail with an error
listing the supported tags; supported tags dispatch to the registered
variant parse function. -/
def GermanRecordFactory.create (model_type : String) (fields : List String) :
    Except String GermanRecord :=
  match List.lookup model_type germanRegistry with
  | Option.none =>
    .error ("Unknown model type: " ++ model_type ++ ". Available: " ++
      pyListRepr get_supported_types)
  | some parse => parse fields

/-! ### Russian `RussianNounRecord` (`russian/records/noun_record.py`) -/

structure RussianNounRecord where
  noun : String
  english : String
  gender : String
  nominative : String
  genitive : String
  «example» : String := ""
  related : String := ""
  animacy : String := "inanimate"
  accusative : String := ""
  instrumental : String := ""
  prepositional : String := ""
  dative : String := ""
  plural_nominative : String := ""
  plural_genitive : String := ""
  deriving DecidableEq, Repr

/-- Embeds `RussianNounRecord.__post_init__`: requires non-empty noun, english and
gender, then defaults the nominative and derives the accusative from
animacy. -/
def RussianNounRecord.post_init (r : RussianNounRecord) :
    Except String RussianNounRecord :=
  if r.noun = "" ∨ r.english = "" then
    .error ("Russian noun requires both " ++ pyQuote "noun" ++ " and " ++
      pyQuote "english" ++ " fields")
  else if r.gender = "" then
    .error ("Russian noun requires " ++ pyQuote "gender" ++ " field")
  else
    let r := { r with nominative :=
      if r.nominative = "" then r.noun else r.nominative }
    let r :=
      if r.accusative = "" then
        { r with accusative :=
          if r.animacy = "animate" then
            if r.genitive ≠ "" then r.genitive else r.noun
          else r.nominative }
      else r
    .ok r

/-- Embeds `RussianNounRecord.from_csv_fields`: no field is stripped; a gender
value outside the allowed set is silently replaced by `"masculine"`, and an
animacy value outside the allowed set by `"inanimate"`. -/
def RussianNounRecord.from_csv_fields (fields : List String) :
    Except String RussianNounRecord :=
  if fields.length < 3 then
    .error ("Russian noun requires at least 3 fields: noun, english, " ++
      "gender. Got " ++ toString fields.length ++ " fields: " ++
      pyListRepr fields)
  else
    let gender_value :=
      if ["masculine", "feminine", "neuter"].contains (fields.getD 2 "") then
        fields.getD 2 ""
      else "masculine"
    let animacy_value :=
      if fields.length > 6 ∧
          ["animate", "inanimate"].contains (fields.getD 6 "") then
        fields.getD 6 ""
      else "inanimate"
    RussianNounRecord.post_init
      ⟨fields.getD 0 "", fields.getD 1 "", gender_value, fields.getD 0 "",
       (if fields.length > 3 then fields.getD 3 "" else ""),
       (if fields.length > 4 then fields.getD 4 "" else ""),
       (if fields.length > 5 then fields.getD 5 "" else ""),
       animacy_value, "",
       (if fields.length > 7 then fields.getD 7 "" else ""),
       (if fields.length > 8 then fields.getD 8 "" else ""),
       (if fields.length > 9 then fields.getD 9 "" else ""),
       (if fields.length > 10 then fields.getD 10 "" else ""),
       (if fields.length > 11 then fields.getD 11 "" else "")⟩

def RussianNounRecord.to_dict (r : RussianNounRecord) : PyDict :=
  [("noun", .str r.noun), ("english", .str r.english),
   ("example", .str r.«example»), ("related", .str r.related),
   ("gender", .str r.gender), ("animacy", .str r.animacy),
   ("nominative", .str r.nominative), ("genitive", .str r.genitive),
   ("accusative", .str r.accusative), ("instrumental", .str r.instrumental),
   ("prepositional", .str r.prepositional), ("dative", .str r.dative),
   ("plural_nominative", .str r.plural_nominative),
   ("plural_genitive", .str r.plural_genitive)]

def RussianNounRecord.field_names : List String :=
  ["noun", "english", "gender", "genitive", "example", "related", "animacy",
   "instrumental", "prepositional", "dative", "plural_nominative",
   "plural_genitive"]

/-! ## Spec-side reference definition for the comparative rule -/

/-- All results of substituting `b` for exactly one occurrence of `a`
in `s`. -/
def singleSubsts (s : List Char) (a b : Char) : List (List Char) :=
  match s with
  | [] => []
  | c :: t =>
    (if c = a then [b :: t] else []) ++ (singleSubsts t a b).map (c :: ·)

/-- Follows the spec's words for the comparative rule: on an irregular-table
hit the comparative must equal the table entry; otherwise it must end in
"er" and its stem (comparative minus "er") must equal the base word with
trailing "e" removed, or that base with one of the umlaut substitutions
a→ä, o→ö, u→ü applied to a single vowel occurrence. -/
def spec_comparative_valid (word comparative : String) : Bool :=
  match List.lookup word irregular_comparatives with
  | some v => comparative == v
  | Option.none =>
    strEndsWith comparative "er" &&
    (let stem := (strDropRight comparative 2).toList
     let base := (rstripChar word 'e').toList
     stem == base ||
     umlaut_pairs.any (fun p => (singleSubsts base p.1 p.2).any (· == stem)))

/-- Is an `Except` value an error? -/
def exceptIsError : Except String α → Bool
  | .error _ => true
  | .ok _ => false

instance [DecidableEq ε] [DecidableEq α] : DecidableEq (Except ε α) :=
  fun x y =>
  match x, y with
  | .ok a, .ok b =>
    if h : a = b then isTrue (by rw [h]) else isFalse (by simp [h])
  | .error a, .error b =>
    if h : a = b then isTrue (by rw [h]) else isFalse (by simp [h])
  | .ok _, .error _ => isFalse (by simp)
  | .error _, .ok _ => isFalse (by simp)

/-! ## Theorems -/

/-- C10: for every German `Adjective` whose superlative field is the empty
string, `validate_superlative()` returns true — the empty superlative is
accepted before the irregular-table, "am " prefix, and "sten" suffix
checks run, for every base word including those in the irregular table. -/
theorem C10_empty_superlative (word english ex comp : String) :
    Adjective.validate_superlative ⟨word, english, ex, comp, ""⟩ = true := by
  simp [Adjective.validate_superlative]

/-- C6 counterexample: for the adjective "langsam" with comparative
"längsamer", the spec's single-occurrence umlaut rule accepts the pair,
but `validate_comparative` returns false — the code substitutes every
occurrence of the vowel at once, so the claimed rule does not match it. -/
theorem C6_counterexample :
    spec_comparative_valid "langsam" "längsamer" = true ∧
    Adjective.validate_comparative
      ⟨"langsam", "slow", "Er geht langsam.", "längsamer", ""⟩ = false := by
  constructor <;> decide

/-- C6 amended: `validate_comparative()` returns true iff the base word is
in the irregular table and the comparative equals the table entry, or the
word is not in the table, the comparative ends in "er", and its stem
(the comparative minus "er") equals the base word with trailing "e"
removed, or equals that base with one of the umlaut substitutions a→ä,
o→ö, u→ü applied to every occurrence of that vowel at once. -/
theorem C6_amended (a : Adjective) :
    a.validate_comparative = true ↔
      ((∃ v, List.lookup a.word irregular_comparatives = some v ∧
          a.comparative = v) ∨
       (List.lookup a.word irregular_comparatives = Option.none ∧
        strEndsWith a.comparative "er" = true ∧
        (strDropRight a.comparative 2 = rstripChar a.word 'e' ∨
         ∃ p ∈ umlaut_pairs,
           replaceAllChar (rstripChar a.word 'e') p.1 p.2 =
             strDropRight a.comparative 2))) := by
  unfold Adjective.validate_comparative
  rcases h : List.lookup a.word irregular_comparatives with _ | v
  · simp [h]
    intro _
    constructor
    · rintro (hb | hany)
      · exact Or.inl hb.symm
      · exact Or.inr hany
    · rintro (hb | hany)
      · exact Or.inl hb.symm
      · exact Or.inr hany
  · simp [h]

/-- C2 counterexample: the Korean noun model constructs successfully with
empty word, romanization, and translation (its initializer only derives
particle fields), and the Russian noun model constructs successfully with
an empty example — neither fails as the claim requires. -/
theorem C2_counterexample :
    KoreanNoun.make "" "" "" "" "" "" "" "개" "" Option.none "object" "" ""
        Option.none =
      ⟨"", "", "", "는", "가", "를", "의", "개", " 세 개", Option.none,
       "object", "", "", Option.none⟩ ∧
    RussianNoun.make "стол" "table" "" "" "masculine" "inanimate" "" "" ""
        "" "" "" "" "" =
      ⟨"стол", "table", "", "", "masculine", "inanimate", "стол", "",
       "стол", "", "", "", "", ""⟩ := by
  constructor <;> decide

/-- C2 amended: of the cited domain models only the German ones validate
required fields — German `Adjective` construction fails exactly when the
word, translation, or example strips to empty; the Korean and Russian noun
models perform no required-field validation and always construct. -/
theorem C2_amended (word english ex comp sup : String) :
    (exceptIsError (Adjective.make word english ex comp sup) = true ↔
      pyStrip word = "" ∨ pyStrip english = "" ∨ pyStrip ex = "") ∧
    (∀ hangul rom en : String,
      (KoreanNoun.make hangul rom en "" "" "" "" "개" "" Option.none
        "object" "" "" Option.none).hangul = hangul ∧
      (KoreanNoun.make hangul rom en "" "" "" "" "개" "" Option.none
        "object" "" "" Option.none).english = en) ∧
    (∀ noun en : String,
      (RussianNoun.make noun en "" "" "masculine" "inanimate" "" "" "" ""
        "" "" "" "").noun = noun ∧
      (RussianNoun.make noun en "" "" "masculine" "inanimate" "" "" "" ""
        "" "" "" "").«example» = "") := by
  refine ⟨?_, ?_, ?_⟩
  · unfold Adjective.make exceptIsError
    split_ifs with h1 h2 h3 <;> simp_all
  · intro hangul rom en
    exact ⟨rfl, rfl⟩
  · intro noun en
    exact ⟨rfl, rfl⟩

/-- C8: for every Russian noun constructed without an explicit accusative,
animate animacy sets the accusative to the genitive, falling back to the
base noun when the genitive is empty; inanimate animacy sets it to the
nominative form. -/
theorem C8_accusative (noun en ex rel gender animacy nom gen instr prep dat
    pn pg : String) :
    (animacy = "animate" →
      (RussianNoun.make noun en ex rel gender animacy nom gen "" instr prep
        dat pn pg).accusative = if gen ≠ "" then gen else noun) ∧
    (animacy = "inanimate" →
      (RussianNoun.make noun en ex rel gender animacy nom gen "" instr prep
        dat pn pg).accusative =
      (RussianNoun.make noun en ex rel gender animacy nom gen "" instr prep
        dat pn pg).nominative) := by
  constructor
  · intro h
    subst h
    simp [RussianNoun.make]
  · intro h
    subst h
    simp [RussianNoun.make]

/-- C8 witness: an animate noun with a supplied genitive takes the genitive
as its accusative. -/
theorem C8_accusative_witness :
    (RussianNoun.make "кот" "cat" "" "" "masculine" "animate" "" "кота" ""
      "" "" "" "" "").accusative =
    if ("кота" : String) ≠ "" then "кота" else "кот" :=
  (C8_accusative "кот" "cat" "" "" "masculine" "animate" "" "кота" "" ""
    "" "" "").1 rfl

/-- C7: for a Korean noun whose particle fields are not supplied, when the
last character of the word lies in the Hangul syllable block and its coda
remainder is non-zero the derived topic, subject, and object particles are
the word suffixed with 은, 이, 을; when the remainder is zero or the last
character lies outside the block, the suffixes are 는, 가, 를. -/
theorem C7_particles (hangul rom en pc ce cat ex exe : String)
    (hf un : Option String) (c : Char)
    (hlast : hangul.toList.getLast? = some c) :
    ((0xAC00 ≤ c.toNat ∧ c.toNat ≤ 0xD7A3 ∧ (c.toNat - 0xAC00) % 28 ≠ 0) →
      (KoreanNoun.make hangul rom en "" "" "" "" pc ce hf cat ex exe
        un).topic_particle = hangul ++ "은" ∧
      (KoreanNoun.make hangul rom en "" "" "" "" pc ce hf cat ex exe
        un).subject_particle = hangul ++ "이" ∧
      (KoreanNoun.make hangul rom en "" "" "" "" pc ce hf cat ex exe
        un).object_particle = hangul ++ "을") ∧
    (((0xAC00 ≤ c.toNat ∧ c.toNat ≤ 0xD7A3 ∧ (c.toNat - 0xAC00) % 28 = 0) ∨
      c.toNat < 0xAC00 ∨ 0xD7A3 < c.toNat) →
      (KoreanNoun.make hangul rom en "" "" "" "" pc ce hf cat ex exe
        un).topic_particle = hangul ++ "는" ∧
      (KoreanNoun.make hangul rom en "" "" "" "" pc ce hf cat ex exe
        un).subject_particle = hangul ++ "가" ∧
      (KoreanNoun.make hangul rom en "" "" "" "" pc ce hf cat ex exe
        un).object_particle = hangul ++ "를") := by
  constructor
  · rintro ⟨h1, h2, h3⟩
    have hfc : has_final_consonant hangul = true := by
      unfold has_final_consonant
      rw [hlast]
      simp [h1, h2, h3]
    simp [KoreanNoun.make, hfc]
  · rintro (⟨h1, h2, h3⟩ | h | h)
    · have hfc : has_final_consonant hangul = false := by
        unfold has_final_consonant
        rw [hlast]
        simp [h1, h2, h3]
      simp [KoreanNoun.make, hfc]
    · have hfc : has_final_consonant hangul = false := by
        unfold has_final_consonant
        rw [hlast]
        simp [Nat.not_le.mpr h]
      simp [KoreanNoun.make, hfc]
    · have hfc : has_final_consonant hangul = false := by
        unfold has_final_consonant
        rw [hlast]
        simp [Nat.not_le.mpr h]
      simp [KoreanNoun.make, hfc]

/-- C7 witness: 책 (coda present) takes 은/이/을; 사과 (no coda) takes
는/가/를. -/
theorem C7_particles_witness :
    (KoreanNoun.make "책" "chaek" "book" "" "" "" "" "개" "" Option.none
      "object" "" "" Option.none).topic_particle = "책" ++ "은" ∧
    (KoreanNoun.make "사과" "sagwa" "apple" "" "" "" "" "개" "" Option.none
      "object" "" "" Option.none).object_particle = "사과" ++ "를" :=
  ⟨((C7_particles "책" "chaek" "book" "개" "" "object" "" "" Option.none
      Option.none (Char.ofNat 0xCC45) (by decide)).1 (by decide)).1,
   (((C7_particles "사과" "sagwa" "apple" "개" "" "object" "" "" Option.none
      Option.none (Char.ofNat 0xACFC) (by decide)).2 (by decide)).2).2⟩

/-- C1 counterexample: the Korean noun's image-search callable, invoked with
a service that returns the empty string, returns the empty string instead
of raising a `MediaGenerationError` — the claimed behavior does not hold
for every domain model. -/
theorem C1_counterexample :
    KoreanNoun.get_image_search_strategy
      (KoreanNoun.make "사과" "sagwa" "apple" "" "" "" "" "개" ""
        Option.none "object" "" "" Option.none)
      (fun _ => Except.ok "") () = Except.ok "" := rfl

/-- C1 amended: the German `Adjective` strategy behaves as claimed — a
non-empty trimmed service result is returned trimmed; an empty result
raises a `MediaGenerationError` naming the word; a raised
`MediaGenerationError` is re-raised unchanged and any other exception is
wrapped in a `MediaGenerationError` naming the word.  The Korean noun
strategy instead forwards the raw service result unchanged. -/
theorem C1_amended (a : Adjective) (svc : AIService) :
    (∀ r, svc a.build_search_context = .ok r → pyStrip r ≠ "" →
      a.get_image_search_strategy svc () = .ok (pyStrip r)) ∧
    (∀ r, svc a.build_search_context = .ok r → pyStrip r = "" →
      a.get_image_search_strategy svc () =
        .error (.mediaGenerationError
          ("AI service returned empty image search query for adjective " ++
           pyQuote a.word))) ∧
    (∀ m, svc a.build_search_context = .error (.mediaGenerationError m) →
      a.get_image_search_strategy svc () =
        .error (.mediaGenerationError m)) ∧
    (∀ m, svc a.build_search_context = .error (.otherError m) →
      a.get_image_search_strategy svc () =
        .error (.mediaGenerationError
          ("Failed to generate image search for adjective " ++
           pyQuote a.word ++ ": " ++ m))) ∧
    (∀ (n : KoreanNoun) (svc2 : AIService),
      n.get_image_search_strategy svc2 () = svc2 n.search_context) := by
  refine ⟨?_, ?_, ?_, ?_, ?_⟩
  · intro r h hne
    unfold Adjective.get_image_search_strategy Adjective.generate_search_terms
    rw [h]
    simp [hne]
  · intro r h he
    unfold Adjective.get_image_search_strategy Adjective.generate_search_terms
    rw [h]
    simp [he]
  · intro m h
    unfold Adjective.get_image_search_strategy Adjective.generate_search_terms
    rw [h]
  · intro m h
    unfold Adjective.get_image_search_strategy Adjective.generate_search_terms
    rw [h]
  · intro n svc2
    rfl

/-- C1 witness: a service answering a padded non-empty string yields the
trimmed result through the adjective strategy. -/
theorem C1_amended_witness :
    Adjective.get_image_search_strategy
      ⟨"gut", "good", "Das ist gut.", "besser", "am besten"⟩
      (fun _ => Except.ok " bright colors ") () =
    Except.ok (pyStrip " bright colors ") :=
  (C1_amended ⟨"gut", "good", "Das ist gut.", "besser", "am besten"⟩
    (fun _ => Except.ok " bright colors ")).1 " bright colors " rfl
    (by decide)

/-- C3 counterexample: a valid 12-field Russian noun array whose first
field carries trailing whitespace round-trips to the dict unstripped —
`to_dict` binds "noun" to the raw field, not the trimmed one. -/
theorem C3_counterexample :
    (RussianNounRecord.from_csv_fields
      ["cat ", "feline", "masculine", "cats", "", "", "inanimate", "", "",
       "", "", ""]).map (fun r => dictGet r.to_dict "noun") =
      Except.ok (some (.str "cat ")) ∧
    pyStrip "cat " ≠ "cat " := by
  constructor <;> decide

/-- C3 amended: the German noun record round-trips with whitespace
stripping — for every 6-field array, `to_dict` of the parsed record binds
every declared field name to the trimmed input; the Russian noun record
instead binds every declared field name to the raw, unstripped input. -/
theorem C3_roundtrip :
    (∀ a b c d e f : String, ∀ r,
      NounRecord.from_csv_fields [a, b, c, d, e, f] = .ok r →
      dictGet r.to_dict "noun" = some (.str (pyStrip a)) ∧
      dictGet r.to_dict "article" = some (.str (pyStrip b)) ∧
      dictGet r.to_dict "english" = some (.str (pyStrip c)) ∧
      dictGet r.to_dict "plural" = some (.str (pyStrip d)) ∧
      dictGet r.to_dict "example" = some (.str (pyStrip e)) ∧
      dictGet r.to_dict "related" = some (.str (pyStrip f))) ∧
    (∀ g0 g1 g2 g3 g4 g5 g6 g7 g8 g9 g10 g11 : String, ∀ r,
      g0 ≠ "" → g1 ≠ "" →
      ["masculine", "feminine", "neuter"].contains g2 = true →
      ["animate", "inanimate"].contains g6 = true →
      RussianNounRecord.from_csv_fields
        [g0, g1, g2, g3, g4, g5, g6, g7, g8, g9, g10, g11] = .ok r →
      dictGet r.to_dict "noun" = some (.str g0) ∧
      dictGet r.to_dict "english" = some (.str g1) ∧
      dictGet r.to_dict "gender" = some (.str g2) ∧
      dictGet r.to_dict "genitive" = some (.str g3) ∧
      dictGet r.to_dict "example" = some (.str g4) ∧
      dictGet r.to_dict "related" = some (.str g5) ∧
      dictGet r.to_dict "animacy" = some (.str g6) ∧
      dictGet r.to_dict "instrumental" = some (.str g7) ∧
      dictGet r.to_dict "prepositional" = some (.str g8) ∧
      dictGet r.to_dict "dative" = some (.str g9) ∧
      dictGet r.to_dict "plural_nominative" = some (.str g10) ∧
      dictGet r.to_dict "plural_genitive" = some (.str g11)) := by
  constructor
  · intro a b c d e f r h
    simp [NounRecord.from_csv_fields] at h
    subst h
    simp [NounRecord.to_dict, dictGet, List.lookup]
  · intro g0 g1 g2 g3 g4 g5 g6 g7 g8 g9 g10 g11 r h0 h1 h2 h6 h
    have h2c : g2 = "masculine" ∨ g2 = "feminine" ∨ g2 = "neuter" := by
      simpa using h2
    have h6c : g6 = "animate" ∨ g6 = "inanimate" := by
      simpa using h6
    rcases h2c with rfl | rfl | rfl <;> rcases h6c with rfl | rfl <;>
    · simp [RussianNounRecord.from_csv_fields, RussianNounRecord.post_init,
        h0, h1] at h
      subst h
      simp [RussianNounRecord.to_dict, dictGet, List.lookup]

/-- C3 witness: a German noun row with padded input strips on round-trip; a
valid Russian row binds its genitive verbatim. -/
theorem C3_roundtrip_witness :
    dictGet (NounRecord.to_dict
      ⟨"Haus", "das", "house", "Häuser", "Das Haus ist groß.", "", none,
       none, none⟩) "noun" = some (.str (pyStrip " Haus ")) ∧
    dictGet (RussianNounRecord.to_dict
      ⟨"дом", "house", "masculine", "дом", "дома", "", "", "inanimate",
       "дом", "", "", "", "", ""⟩) "genitive" = some (.str "дома") :=
  ⟨(C3_roundtrip.1 " Haus " "das" "house" "Häuser" "Das Haus ist groß." ""
      ⟨"Haus", "das", "house", "Häuser", "Das Haus ist groß.", "", none,
       none, none⟩ (by decide)).1,
   (C3_roundtrip.2 "дом" "house" "masculine" "дома" "" "" "inanimate" ""
      "" "" "" ""
      ⟨"дом", "house", "masculine", "дом", "дома", "", "", "inanimate",
       "дом", "", "", "", "", ""⟩ (by decide) (by decide) (by decide)
      (by decide) (by decide)).2.2.2.1⟩

/-- C4 counterexample: the Russian noun record constructed from a gender
value outside the allowed set does not fail — it silently substitutes the
default "masculine". -/
theorem C4_counterexample :
    (["masculine", "feminine", "neuter"].contains "bogus" = false) ∧
    RussianNounRecord.from_csv_fields ["cat", "feline", "bogus"] =
      Except.ok ⟨"cat", "feline", "masculine", "cat", "", "", "",
        "inanimate", "cat", "", "", "", "", ""⟩ := by
  constructor <;> decide

/-- C4 amended: the German verb-conjugation and article records check their
closed-vocabulary fields (classification, auxiliary, tense; gender) and
fail with an error naming the allowed set, each rendered set text naming
every allowed value; the Russian noun record instead silently substitutes
the defaults "masculine" and "inanimate" for unrecognized gender and
animacy values. -/
theorem C4_enumerated :
    (∀ r : VerbConjugationRecord,
      valid_classifications.contains r.classification = false →
      VerbConjugationRecord.validate r =
        .error ("Invalid classification: " ++ r.classification ++
          ". Must be one of " ++ pySetRepr valid_classifications)) ∧
    (∀ r : VerbConjugationRecord,
      valid_classifications.contains r.classification = true →
      valid_auxiliaries.contains r.auxiliary = false →
      VerbConjugationRecord.validate r =
        .error ("Invalid auxiliary: " ++ r.auxiliary ++
          ". Must be one of " ++ pySetRepr valid_auxiliaries)) ∧
    (∀ r : VerbConjugationRecord,
      valid_classifications.contains r.classification = true →
      valid_auxiliaries.contains r.auxiliary = true →
      valid_tenses.contains r.tense = false →
      VerbConjugationRecord.validate r =
        .error ("Invalid tense: " ++ r.tense ++ ". Must be one of " ++
          pySetRepr valid_tenses)) ∧
    (∀ r : ArticleRecord, valid_genders.contains r.gender = false →
      ArticleRecord.validate r =
        .error ("Invalid gender: " ++ r.gender ++ ". Must be one of " ++
          pySetRepr valid_genders)) ∧
    (∀ v ∈ valid_classifications,
      containsSub (pySetRepr valid_classifications).toList v.toList = true) ∧
    (∀ v ∈ valid_auxiliaries,
      containsSub (pySetRepr valid_auxiliaries).toList v.toList = true) ∧
    (∀ v ∈ valid_tenses,
      containsSub (pySetRepr valid_tenses).toList v.toList = true) ∧
    (∀ v ∈ valid_genders,
      containsSub (pySetRepr valid_genders).toList v.toList = true) ∧
    (∀ noun en g : String, noun ≠ "" → en ≠ "" →
      ["masculine", "feminine", "neuter"].contains g = false →
      RussianNounRecord.from_csv_fields [noun, en, g] =
        Except.ok ⟨noun, en, "masculine", noun, "", "", "", "inanimate",
          noun, "", "", "", "", ""⟩) := by
  refine ⟨?_, ?_, ?_, ?_, by decide, by decide, by decide, by decide, ?_⟩
  · intro r h
    have h' : r.classification ∉ valid_classifications := by simpa using h
    simp [VerbConjugationRecord.validate, h']
  · intro r h1 h2
    have h1' : r.classification ∈ valid_classifications := by simpa using h1
    have h2' : r.auxiliary ∉ valid_auxiliaries := by simpa using h2
    simp [VerbConjugationRecord.validate, h1', h2']
  · intro r h1 h2 h3
    have h1' : r.classification ∈ valid_classifications := by simpa using h1
    have h2' : r.auxiliary ∈ valid_auxiliaries := by simpa using h2
    have h3' : r.tense ∉ valid_tenses := by simpa using h3
    simp [VerbConjugationRecord.validate, h1', h2', h3']
  · intro r h
    have h' : r.gender ∉ valid_genders := by simpa using h
    simp [ArticleRecord.validate, h']
  · intro noun en g h0 h1 hg
    have hg2 : ¬ (g = "masculine" ∨ g = "feminine" ∨ g = "neuter") := by
      simpa using hg
    simp [RussianNounRecord.from_csv_fields, RussianNounRecord.post_init,
      h0, h1, hg2]

/-- C4 witness: an invalid classification fails with the message naming the
allowed classification set, and a 3-field Russian row with a bogus gender
constructs with the silent default. -/
theorem C4_enumerated_witness :
    VerbConjugationRecord.validate
      ⟨"gehen", "go", "bogus", false, "haben", "present", "", "", "", "",
       "", "", "", none, none, none⟩ =
      .error ("Invalid classification: " ++ "bogus" ++
        ". Must be one of " ++ pySetRepr valid_classifications) ∧
    RussianNounRecord.from_csv_fields ["пёс", "dog", "weird"] =
      Except.ok ⟨"пёс", "dog", "masculine", "пёс", "", "", "",
        "inanimate", "пёс", "", "", "", "", ""⟩ :=
  ⟨C4_enumerated.1 ⟨"gehen", "go", "bogus", false, "haben", "present", "",
      "", "", "", "", "", "", none, none, none⟩ (by decide),
   C4_enumerated.2.2.2.2.2.2.2.2 "пёс" "dog" "weird" (by decide)
     (by decide) (by decide)⟩

/-- Helper: tense-completeness validation either returns its input record
unchanged or fails. -/
theorem vcr_tense_completeness_cases (r : VerbConjugationRecord) :
    VerbConjugationRecord.validate_tense_completeness r = .ok r ∨
    exceptIsError (VerbConjugationRecord.validate_tense_completeness r) =
      true := by
  unfold VerbConjugationRecord.validate_tense_completeness
  simp only []
  split_ifs <;> simp [exceptIsError]

/-- Helper: tense-completeness validation either fails or returns its input
record unchanged. -/
theorem vcr_tense_completeness_eq (r r' : VerbConjugationRecord)
    (h : VerbConjugationRecord.validate_tense_completeness r = .ok r') :
    r' = r := by
  rcases vcr_tense_completeness_cases r with hok | herr
  · rw [hok] at h
    exact (Except.ok.injEq _ _ ▸ h).symm
  · rw [h] at herr
    simp [exceptIsError] at herr

/-- Helper: `validate` never changes the separable flag of a record it
accepts. -/
theorem vcr_validate_separable (r r' : VerbConjugationRecord)
    (h : VerbConjugationRecord.validate r = .ok r') :
    r'.separable = r.separable := by
  unfold VerbConjugationRecord.validate at h
  split_ifs at h
  have heq := vcr_tense_completeness_eq _ _ h
  rw [heq]

/-- C5 counterexample: the German verb record parses the separable field
"1" to false — only the literal "true" parses to true there, so the
claimed three-literal rule fails for `VerbRecord`. -/
theorem C5_counterexample :
    VerbRecord.from_csv_fields
      ["gehen", "go", "regelmäßig", "gehe", "gehst", "geht", "ging",
       "sein", "gegangen", "Er geht.", "1"] =
      Except.ok ⟨"gehen", "go", "regelmäßig", "gehe", "gehst", "geht",
        "ging", "sein", "gegangen", "Er geht.", false, none, none,
        none⟩ := by
  decide

/-- C5 amended: the verb-conjugation record parses its separable field by
case-insensitive membership in ("true", "1", "yes") after stripping, while
the plain verb record parses its separable field by case-insensitive
equality with the single literal "true". -/
theorem C5_separable :
    (∀ fields r, VerbConjugationRecord.from_csv_fields fields = .ok r →
      r.separable =
        ["true", "1", "yes"].contains (pyLower (pyStrip (fields.getD 3 "")))) ∧
    (∀ fields r, VerbRecord.from_csv_fields fields = .ok r →
      r.separable = (pyLower (pyStrip (fields.getD 10 "")) == "true")) := by
  constructor
  · intro fields r h
    unfold VerbConjugationRecord.from_csv_fields at h
    split_ifs at h
    all_goals
      have heq := vcr_validate_separable _ _ h
      rw [heq]
  · intro fields r h
    unfold VerbRecord.from_csv_fields at h
    split_ifs at h
    simp only [Except.ok.injEq] at h
    subst h
    rfl

/-- C5 witness: the conjugation-record flag "YES" parses to membership of
"yes" in the allowed literal set. -/
theorem C5_separable_witness :
    (⟨"dürfen", "may", "modal", true, "haben", "present", "darf", "darfst",
      "darf", "dürfen", "dürft", "dürfen", "Er darf.", none, none,
      none⟩ : VerbConjugationRecord).separable =
      ["true", "1", "yes"].contains (pyLower (pyStrip "YES")) :=
  C5_separable.1
    ["dürfen", "may", "modal", "YES", "haben", "present", "darf", "darfst",
     "darf", "dürfen", "dürft", "dürfen", "Er darf."]
    ⟨"dürfen", "may", "modal", true, "haben", "present", "darf", "darfst",
     "darf", "dürfen", "dürft", "dürfen", "Er darf.", none, none, none⟩
    (by decide)

/-- C9: for every type tag not in the German record registry,
`GermanRecordFactory.create` fails with an error naming the supported-tag
list (whose rendered text mentions every supported tag), and every
supported tag dispatches to the matching record variant's
`from_csv_fields`. -/
theorem C9_factory :
    (∀ tag fields, tag ∉ get_supported_types →
      GermanRecordFactory.create tag fields =
        .error ("Unknown model type: " ++ tag ++ ". Available: " ++
          pyListRepr get_supported_types)) ∧
    (∀ t ∈ get_supported_types,
      containsSub (pyListRepr get_supported_types).toList t.toList = true) ∧
    (∀ fields, GermanRecordFactory.create "noun" fields =
      (NounRecord.from_csv_fields fields).map GermanRecord.noun) ∧
    (∀ fields, GermanRecordFactory.create "adjective" fields =
      (AdjectiveRecord.from_csv_fields fields).map GermanRecord.adjective) ∧
    (∀ fields, GermanRecordFactory.create "adverb" fields =
      (AdverbRecord.from_csv_fields fields).map GermanRecord.adverb) ∧
    (∀ fields, GermanRecordFactory.create "negation" fields =
      (NegationRecord.from_csv_fields fields).map GermanRecord.negation) ∧
    (∀ fields, GermanRecordFactory.create "verb" fields =
      (VerbRecord.from_csv_fields fields).map GermanRecord.verb) ∧
    (∀ fields, GermanRecordFactory.create "phrase" fields =
      (PhraseRecord.from_csv_fields fields).map GermanRecord.phrase) ∧
    (∀ fields, GermanRecordFactory.create "preposition" fields =
      (PrepositionRecord.from_csv_fields fields).map
        GermanRecord.preposition) ∧
    (∀ fields, GermanRecordFactory.create "verb_conjugation" fields =
      (VerbConjugationRecord.from_csv_fields fields).map
        GermanRecord.verb_conjugation) ∧
    (∀ fields, GermanRecordFactory.create "verb_imperative" fields =
      (VerbImperativeRecord.from_csv_fields fields).map
        GermanRecord.verb_imperative) ∧
    (∀ fields, GermanRecordFactory.create "article" fields =
      (ArticleRecord.from_csv_fields fields).map GermanRecord.article) ∧
    (∀ fields, GermanRecordFactory.create "indefinite_article" fields =
      (IndefiniteArticleRecord.from_csv_fields fields).map
        GermanRecord.indefinite_article) ∧
    (∀ fields, GermanRecordFactory.create "negative_article" fields =
      (NegativeArticleRecord.from_csv_fields fields).map
        GermanRecord.negative_article) ∧
    (∀ fields, GermanRecordFactory.create "unified_article" fields =
      (UnifiedArticleRecord.from_csv_fields fields).map
        GermanRecord.unified_article) := by
  refine ⟨?_, by decide, fun _ => rfl, fun _ => rfl, fun _ => rfl,
    fun _ => rfl, fun _ => rfl, fun _ => rfl, fun _ => rfl, fun _ => rfl,
    fun _ => rfl, fun _ => rfl, fun _ => rfl, fun _ => rfl, fun _ => rfl⟩
  intro tag fields htag
  simp [get_supported_types, germanRegistry] at htag
  obtain ⟨h1, h2, h3, h4, h5, h6, h7, h8, h9, h10, h11, h12, h13⟩ := htag
  have f1 : (tag == "noun") = false := by simp [h1]
  have f2 : (tag == "adjective") = false := by simp [h2]
  have f3 : (tag == "adverb") = false := by simp [h3]
  have f4 : (tag == "negation") = false := by simp [h4]
  have f5 : (tag == "verb") = false := by simp [h5]
  have f6 : (tag == "phrase") = false := by simp [h6]
  have f7 : (tag == "preposition") = false := by simp [h7]
  have f8 : (tag == "verb_conjugation") = false := by simp [h8]
  have f9 : (tag == "verb_imperative") = false := by simp [h9]
  have f10 : (tag == "article") = false := by simp [h10]
  have f11 : (tag == "indefinite_article") = false := by simp [h11]
  have f12 : (tag == "negative_article") = false := by simp [h12]
  have f13 : (tag == "unified_article") = false := by simp [h13]
  have h : List.lookup tag germanRegistry = Option.none := by
    simp [germanRegistry, List.lookup, f1, f2, f3, f4, f5, f6, f7, f8, f9,
      f10, f11, f12, f13]
  simp [GermanRecordFactory.create, h]

/-- C9 witness: the unsupported tag "unknown_type" fails with the message
listing the supported tags. -/
theorem C9_factory_witness :
    GermanRecordFactory.create "unknown_type" [] =
      .error ("Unknown model type: " ++ "unknown_type" ++ ". Available: " ++
        pyListRepr get_supported_types) :=
  C9_factory.1 "unknown_type" [] (by decide)

end Langlearn
